import Mathlib

/-!
Verification of the traffic-simulation core of this repository.

The two source variants are embedded shallowly:
* namespace-free shared data (sides, vehicle catalog, vehicles),
* definitions prefixed `app8...` for the two-junction variant (app8.py),
* definitions prefixed `pg2...` for the single-junction incident-aware
  variant (pleasegod2.py).

Real-valued quantities (pixel positions, timers, ratios) are modelled as
rationals; Python ints stay integers / naturals.
-/

namespace Traffic

/-- Traffic-light phase, the string field `state` of both variants. -/
inductive LState
| red
| yellow
| green
deriving DecidableEq

/-- Compass side of a junction, also used as a direction of travel. -/
inductive Side
| N
| S
| E
| W
deriving DecidableEq

/-- The axis (pair of opposite sides) a side belongs to. -/
inductive Axis
| NS
| EW
deriving DecidableEq

def axisOf : Side → Axis
| Side.N => Axis.NS
| Side.S => Axis.NS
| Side.E => Axis.EW
| Side.W => Axis.EW

/-- The iteration order `['N', 'S', 'E', 'W']` used by the sources. -/
def sidesList : List Side := [Side.N, Side.S, Side.E, Side.W]

/-- Vehicle catalog keys of `VEHICLE_TYPES` (both variants share it). -/
inductive VType
| Car
| Bus
| Truck
| Motorcycle
deriving DecidableEq

/-- `VEHICLE_TYPES[t]['length']`. -/
def vLength : VType → ℤ
| VType.Car => 40
| VType.Bus => 60
| VType.Truck => 70
| VType.Motorcycle => 30

/-- `VEHICLE_TYPES[t]['speed']`. -/
def vSpeed : VType → ℤ
| VType.Car => 3
| VType.Bus => 2
| VType.Truck => 2
| VType.Motorcycle => 4

/-- A vehicle: its 2D position, direction of travel and catalog class. -/
@[ext]
structure Vehicle where
  x : ℚ
  y : ℚ
  direction : Side
  vtype : VType
deriving DecidableEq

instance : Inhabited Vehicle := ⟨⟨0, 0, Side.N, VType.Car⟩⟩

/-- Direction of travel of a lane, derived from its side exactly as both
`Lane.__init__` bodies do: N→S, S→N, E→W, W→E. -/
def laneDirection : Side → Side
| Side.N => Side.S
| Side.S => Side.N
| Side.E => Side.W
| Side.W => Side.E

/-- `Vehicle.is_off_screen` (identical in both variants);
window is 1024 × 768 with a 100-pixel margin. -/
def isOffScreen (v : Vehicle) : Bool :=
  match v.direction with
  | Side.E => decide (1024 + 100 < v.x)
  | Side.W => decide (v.x < -100)
  | Side.S => decide (768 + 100 < v.y)
  | Side.N => decide (v.y < -100)

/-- Distance between two vehicles measured along the lane's direction axis
(`abs` of the coordinate difference, as in `Lane.update`). -/
def axisDist (dir : Side) (a b : Vehicle) : ℚ :=
  if dir = Side.E ∨ dir = Side.W then |a.x - b.x| else |a.y - b.y|

/-- The one legal entry-lane index per side (W and N → lane 0, E and S →
lane 1), shared by both variants' `place_vehicle` checks. -/
def entryLane : Side → ℕ
| Side.W => 0
| Side.E => 1
| Side.N => 0
| Side.S => 1

/-- Spawn-position computation shared by both `place_vehicle` bodies: offset
the spawn point by the sum of (length + spacing) over queued vehicles,
along the direction of travel (spacing is 5 in both variants). -/
def spawnVehicle (spawnX spawnY : ℚ) (dir : Side) (vehicles : List Vehicle)
    (vt : VType) : Vehicle :=
  let off : ℚ := (vehicles.map (fun v => (vLength v.vtype : ℚ) + 5)).sum
  match dir with
  | Side.E => ⟨spawnX + off, spawnY, dir, vt⟩
  | Side.W => ⟨spawnX - off, spawnY, dir, vt⟩
  | Side.S => ⟨spawnX, spawnY + off, dir, vt⟩
  | Side.N => ⟨spawnX, spawnY - off, dir, vt⟩

/-! ### app8.py: vehicles and lanes -/

/-- `Vehicle.update(dt, can_move)` of app8.py: `dt` is accepted but never
read; a permitted vehicle advances by exactly its class speed. -/
def app8VehicleUpdate (dt : ℚ) (canMove : Bool) (v : Vehicle) : Vehicle :=
  if canMove then
    match v.direction with
    | Side.E => { v with x := v.x + vSpeed v.vtype }
    | Side.W => { v with x := v.x - vSpeed v.vtype }
    | Side.S => { v with y := v.y + vSpeed v.vtype }
    | Side.N => { v with y := v.y - vSpeed v.vtype }
  else v

/-- `VEHICLE_TYPES[vehicle.type]['length'] + self.spacing` of app8's
`Lane.update`. -/
def app8MinDistance (v : Vehicle) : ℚ := (vLength v.vtype : ℚ) + 5

/-- The in-place vehicle loop of app8's `Lane.update`: vehicles are visited
in queue order, each one sees the already-updated position of the vehicle
ahead of it (`prev`), and moves only when the light is green and the gap to
the vehicle ahead is not below its minimum distance. -/
def app8LaneMove (dt : ℚ) (light : LState) (dir : Side) :
    Option Vehicle → List Vehicle → List Vehicle
| _, [] => []
| prev, v :: rest =>
    let canMove : Bool :=
      match prev with
      | none => true
      | some ahead => if axisDist dir ahead v < app8MinDistance v then false else true
    let shouldMove : Bool := if light = LState.green then canMove else false
    let v1 := app8VehicleUpdate dt shouldMove v
    v1 :: app8LaneMove dt light dir (some v1) rest

/-- `Lane.update(dt, traffic_light_state)` of app8.py: the movement pass
followed by removal of off-screen vehicles. -/
def app8LaneUpdate (dt : ℚ) (light : LState) (dir : Side)
    (vehicles : List Vehicle) : List Vehicle :=
  (app8LaneMove dt light dir none vehicles).filter (fun v => !(isOffScreen v))

/-- A lane of app8.py (the fields `place_vehicle` and `update` read). -/
structure App8Lane where
  junction_id : ℕ
  side : Side
  lane_number : ℕ
  direction : Side
  spawnX : ℚ
  spawnY : ℚ
  vehicles : List Vehicle
deriving DecidableEq

/-- `Lane.place_vehicle` of app8.py: the four entry-lane checks, then the
spawn-offset computation and append. -/
def app8PlaceVehicle (lane : App8Lane) (vt : VType) : Bool × App8Lane :=
  if lane.side = Side.W ∧ lane.lane_number ≠ 0 then (false, lane)
  else if lane.side = Side.E ∧ lane.lane_number ≠ 1 then (false, lane)
  else if lane.side = Side.N ∧ lane.lane_number ≠ 0 then (false, lane)
  else if lane.side = Side.S ∧ lane.lane_number ≠ 1 then (false, lane)
  else (true, { lane with vehicles :=
    lane.vehicles ++ [spawnVehicle lane.spawnX lane.spawnY lane.direction lane.vehicles vt] })

/-! ### app8.py: the adaptive traffic light -/

/-- A traffic light of app8.py; `min_green_time = 10`, `max_green_time = 45`
and `yellow_time = 3` are the constants set in `TrafficLight.__init__`. -/
structure App8Light where
  direction : Side
  state : LState
  timer : ℚ
  current_cycle_time : ℤ
  countdown_active : Bool
  vehicle_count_last_cycle : ℤ
  vehicles_cleared_last_cycle : ℤ
  performance_history : List ℚ
deriving DecidableEq

/-- `TrafficLight.get_average_performance`: 1.0 on an empty history,
otherwise the mean of the stored ratios. -/
def get_average_performance (hist : List ℚ) : ℚ :=
  if hist = [] then 1 else hist.sum / hist.length

/-- `TrafficLight.calculate_performance_adjustment`. -/
def calculate_performance_adjustment (avg : ℚ) : ℤ :=
  if avg < 7 / 10 then 5
  else if 9 / 10 < avg then -3
  else 0

/-- `TrafficLight.calculate_green_time(vehicle_count, approaching_count)` of
app8.py, with the light's direction and performance history passed
explicitly. -/
def app8CalculateGreenTime (dir : Side) (hist : List ℚ)
    (vehicle_count approaching_count : ℕ) : ℤ :=
  let base_time : ℤ := 10
  let density_factor : ℤ := min ((vehicle_count : ℤ) * 3) 20
  let approach_factor : ℤ :=
    if dir = Side.E ∨ dir = Side.W then min ((approaching_count : ℤ) * 2) 10 else 0
  let performance_adjustment : ℤ :=
    calculate_performance_adjustment (get_average_performance hist)
  let total_time := base_time + density_factor + approach_factor + performance_adjustment
  min (max total_time 10) 45

/-- `TrafficLight.update_performance`: append the clearance ratio when the
cycle had vehicles, keeping only the last 5 entries. -/
def update_performance (cleared total : ℤ) (hist : List ℚ) : List ℚ :=
  if 0 < total then
    let h := hist ++ [(cleared : ℚ) / (total : ℚ)]
    if 5 < h.length then h.drop 1 else h
  else hist

/-- `TrafficLight.start_cycle(vehicle_count, approaching_count)`. -/
def app8StartCycle (L : App8Light) (vehicle_count approaching_count : ℕ) :
    App8Light :=
  let ct := app8CalculateGreenTime L.direction L.performance_history
    vehicle_count approaching_count
  { L with
    current_cycle_time := ct
    timer := (ct : ℚ)
    countdown_active := true
    vehicle_count_last_cycle := (vehicle_count : ℤ)
    vehicles_cleared_last_cycle := 0 }

/-- `TrafficLight.update(dt, vehicles_present, current_vehicle_count)` of
app8.py: forced red when no vehicles are present, otherwise the countdown
decrement, clearance tracking, and green→yellow→red transitions. -/
def app8LightUpdate (dt : ℚ) (vehicles_present : Bool)
    (current_vehicle_count : ℤ) (L : App8Light) : App8Light :=
  if vehicles_present = false ∧ L.state ≠ LState.red then
    let hist1 := update_performance L.vehicles_cleared_last_cycle
      L.vehicle_count_last_cycle L.performance_history
    { L with
      performance_history := hist1
      state := LState.red
      timer := 0
      countdown_active := false }
  else if 0 < L.timer ∧ L.countdown_active = true then
    let timer1 := L.timer - dt
    let cleared1 :=
      if L.state = LState.green ∧
          L.vehicles_cleared_last_cycle <
            L.vehicle_count_last_cycle - current_vehicle_count then
        L.vehicle_count_last_cycle - current_vehicle_count
      else L.vehicles_cleared_last_cycle
    if timer1 ≤ 0 then
      if L.state = LState.green then
        { L with
          state := LState.yellow
          timer := 3
          vehicles_cleared_last_cycle := cleared1 }
      else if L.state = LState.yellow then
        let hist1 := update_performance cleared1 L.vehicle_count_last_cycle
          L.performance_history
        { L with
          state := LState.red
          timer := 0
          vehicles_cleared_last_cycle := cleared1
          performance_history := hist1 }
      else
        { L with timer := timer1, vehicles_cleared_last_cycle := cleared1 }
    else
      { L with timer := timer1, vehicles_cleared_last_cycle := cleared1 }
  else L

/-! ### app8.py: the two-junction East-West coordination -/

/-- x-coordinate of a junction centre: `WINDOW_WIDTH//3` for junction 0 and
`2*WINDOW_WIDTH//3` for junction 1. -/
def junctionX (id : ℕ) : ℚ := if id = 0 then 341 else 682

/-- y-coordinate of both junction centres, `WINDOW_HEIGHT//2`. -/
def junctionY : ℚ := 384

/-- `TrafficSystem.is_vehicle_approaching_junction(vehicle, junction_id)`:
the vehicle is within 200 pixels of the junction, moving toward it. -/
def app8IsApproaching (v : Vehicle) (jid : ℕ) : Bool :=
  match v.direction with
  | Side.E => decide (0 < junctionX jid - v.x ∧ junctionX jid - v.x < 200)
  | Side.W => decide (0 < v.x - junctionX jid ∧ v.x - junctionX jid < 200)
  | Side.S => decide (0 < junctionY - v.y ∧ junctionY - v.y < 200)
  | Side.N => decide (0 < v.y - junctionY ∧ v.y - junctionY < 200)

/-- The East-West part of an app8 intersection: the vehicle lists of the
E-side and W-side lanes and the two East-West lights. -/
structure App8JunctionEW where
  eLanes : List (List Vehicle)
  wLanes : List (List Vehicle)
  lightE : App8Light
  lightW : App8Light
deriving DecidableEq

/-- `sum(len(lane.vehicles) for side in ['E','W'] for lane in ...)`. -/
def ewVehicleCount (j : App8JunctionEW) : ℕ :=
  ((j.eLanes ++ j.wLanes).map List.length).sum

/-- Number of vehicles in the junction's East-West lanes that are
approaching the junction with id `target`. -/
def ewApproachingCount (j : App8JunctionEW) (target : ℕ) : ℕ :=
  ((j.eLanes ++ j.wLanes).map
    (fun lane => (lane.filter (fun v => app8IsApproaching v target)).length)).sum

/-- The `intersection.id == 0` branch of
`TrafficSystem.coordinate_ew_lights`: junction 1's raw East-West count gates
junction 0's East-West green; `vehicle_count` sizes a new cycle, started
only when no countdown is active. -/
def app8CoordEWJ0 (lightE lightW : App8Light) (junction1_count : ℕ)
    (vehicle_count : ℕ) : App8Light × App8Light :=
  if 3 < junction1_count then
    ({ lightE with state := LState.red, countdown_active := false, timer := 0 },
     { lightW with state := LState.red, countdown_active := false, timer := 0 })
  else
    let e1 := { lightE with state := LState.green }
    let e2 := if e1.countdown_active then e1 else app8StartCycle e1 vehicle_count 0
    let w1 := { lightW with state := LState.green }
    let w2 := if w1.countdown_active then w1 else app8StartCycle w1 vehicle_count 0
    (e2, w2)

/-- The East-West light handling of `TrafficSystem.update` for junction 0:
`ew_total` is junction 0's own East-West count plus the vehicles in
junction 1's East-West lanes approaching junction 0; if it is positive the
coordination runs, otherwise `set_lights_for_axis(..., 'EW', 'red')` only
rewrites the two states. -/
def app8UpdateEWJ0 (j0 j1 : App8JunctionEW) : App8JunctionEW :=
  let ewTotal := ewVehicleCount j0 + ewApproachingCount j1 0
  if 0 < ewTotal then
    let p := app8CoordEWJ0 j0.lightE j0.lightW (ewVehicleCount j1) ewTotal
    { j0 with lightE := p.1, lightW := p.2 }
  else
    { j0 with
      lightE := { j0.lightE with state := LState.red }
      lightW := { j0.lightW with state := LState.red } }

/-! ### pleasegod2.py: incidents, lanes, vehicles -/

/-- An `Accident` of pleasegod2.py (`size` is the constant 50 and
`flash_interval` the constant 1/2). -/
structure Pg2Accident where
  x : ℚ
  y : ℚ
  side : Side
  lane_number : ℕ
  active : Bool
  flash_timer : ℚ
  show_warning : Bool
deriving DecidableEq

/-- `Accident.update(dt)`: advance the flash timer, toggling visibility
every half second. Position and active flag are never touched. -/
def pg2AccidentUpdate (dt : ℚ) (a : Pg2Accident) : Pg2Accident :=
  let t := a.flash_timer + dt
  if 1 / 2 ≤ t then
    { a with show_warning := !a.show_warning, flash_timer := 0 }
  else
    { a with flash_timer := t }

/-- A `Lane` of pleasegod2.py (spacing is the constant 5). -/
structure Pg2Lane where
  junction_id : ℕ
  side : Side
  lane_number : ℕ
  posX : ℚ
  posY : ℚ
  direction : Side
  spawnX : ℚ
  spawnY : ℚ
  vehicles : List Vehicle
  accident : Option Pg2Accident
  flow_rate_factor : ℚ
deriving DecidableEq

/-- `Lane.has_active_accident`. -/
def pg2HasActiveAccident (lane : Pg2Lane) : Bool :=
  match lane.accident with
  | some a => a.active
  | none => false

/-- Whether an optional accident is present and active (the repeated
`self.accident and self.accident.active` test of `Lane.update`). -/
def pg2AccActive : Option Pg2Accident → Bool
| some a => a.active
| none => false

/-- `Lane.place_vehicle` of pleasegod2.py: lane 0 accepts only W/N sides,
lane 1 only E/S sides; on success the spawn-offset vehicle is appended. -/
def pg2PlaceVehicle (lane : Pg2Lane) (vt : VType) : Bool × Pg2Lane :=
  let allowed :=
    (lane.lane_number = 0 ∧ (lane.side = Side.W ∨ lane.side = Side.N)) ∨
    (lane.lane_number = 1 ∧ (lane.side = Side.E ∨ lane.side = Side.S))
  if allowed then
    (true, { lane with vehicles :=
      lane.vehicles ++ [spawnVehicle lane.spawnX lane.spawnY lane.direction lane.vehicles vt] })
  else (false, lane)

/-- `Lane.place_accident(position)`: fails if an active accident already
exists; otherwise stores a fresh accident (default position a 100-pixel
offset from the lane's reference point along the direction of travel) and
sets the flow-rate factor to 0. -/
def pg2PlaceAccident (lane : Pg2Lane) (pos : Option (ℚ × ℚ)) : Bool × Pg2Lane :=
  if pg2AccActive lane.accident then (false, lane)
  else
    let p :=
      match pos with
      | some q => q
      | none =>
        if lane.direction = Side.E ∨ lane.direction = Side.W then
          (lane.posX + (if lane.direction = Side.E then 100 else -100), lane.posY)
        else
          (lane.posX, lane.posY + (if lane.direction = Side.S then 100 else -100))
    (true, { lane with
      accident := some ⟨p.1, p.2, lane.side, lane.lane_number, true, 0, true⟩
      flow_rate_factor := 0 })

/-- `Lane.clear_accident`. -/
def pg2ClearAccident (lane : Pg2Lane) : Bool × Pg2Lane :=
  match lane.accident with
  | some a =>
    if a.active then
      (true, { lane with accident := some { a with active := false }, flow_rate_factor := 1 })
    else (false, lane)
  | none => (false, lane)

/-- The `can_move_forward` computation of pleasegod2's `Lane.update`: the
vehicle is blocked by an active accident ahead of it within
`min_distance + size//2`, or by the vehicle ahead within `min_distance`. -/
def pg2CanMove (acc : Option Pg2Accident) (dir : Side) (prev : Option Vehicle)
    (v : Vehicle) : Bool :=
  let minDist : ℚ := (vLength v.vtype : ℚ) + 5
  let accOk : Bool :=
    match acc with
    | some a =>
      if a.active then
        match dir with
        | Side.E =>
          if v.x < a.x then !(decide (a.x - v.x < minDist + 25)) else true
        | Side.W =>
          if a.x < v.x then !(decide (v.x - a.x < minDist + 25)) else true
        | Side.S =>
          if v.y < a.y then !(decide (a.y - v.y < minDist + 25)) else true
        | Side.N =>
          if a.y < v.y then !(decide (v.y - a.y < minDist + 25)) else true
      else true
    | none => true
  let aheadOk : Bool :=
    match prev with
    | some ahead =>
      let d : ℚ :=
        match dir with
        | Side.E => ahead.x - v.x
        | Side.W => v.x - ahead.x
        | Side.S => ahead.y - v.y
        | Side.N => v.y - ahead.y
      !(decide (|d| < minDist))
    | none => true
  accOk && aheadOk

/-- `Vehicle.update(dt, can_move, flow_rate_factor)` of pleasegod2.py:
`dt` is ignored; a permitted vehicle advances by its class speed times the
passed factor. -/
def pg2VehicleUpdate (dt : ℚ) (canMove : Bool) (flow_rate_factor : ℚ)
    (v : Vehicle) : Vehicle :=
  if canMove then
    let effective_speed := (vSpeed v.vtype : ℚ) * flow_rate_factor
    match v.direction with
    | Side.E => { v with x := v.x + effective_speed }
    | Side.W => { v with x := v.x - effective_speed }
    | Side.S => { v with y := v.y + effective_speed }
    | Side.N => { v with y := v.y - effective_speed }
  else v

/-- The vehicle loop of pleasegod2's `Lane.update`. Each vehicle sees the
already-updated vehicle ahead; the speed value handed to `Vehicle.update`
as its factor argument is the vehicle's class speed, scaled by the lane's
flow-rate factor while an accident is active. -/
def pg2LaneMove (dt : ℚ) (light : LState) (dir : Side) (factor : ℚ)
    (acc : Option Pg2Accident) :
    Option Vehicle → List Vehicle → List Vehicle
| _, [] => []
| prev, v :: rest =>
    let canMove := pg2CanMove acc dir prev v
    let shouldMove : Bool := if light = LState.green then canMove else false
    let effective_speed : ℚ :=
      if pg2AccActive acc then (vSpeed v.vtype : ℚ) * factor
      else (vSpeed v.vtype : ℚ)
    let v1 := pg2VehicleUpdate dt shouldMove effective_speed v
    v1 :: pg2LaneMove dt light dir factor acc (some v1) rest

/-- `Lane.update(dt, traffic_light_state)` of pleasegod2.py: the accident
flash timer is advanced first (when active), then the vehicle loop runs,
then off-screen vehicles are removed. -/
def pg2LaneUpdate (dt : ℚ) (light : LState) (lane : Pg2Lane) : Pg2Lane :=
  let acc1 :=
    if pg2AccActive lane.accident then lane.accident.map (pg2AccidentUpdate dt)
    else lane.accident
  let moved := pg2LaneMove dt light lane.direction lane.flow_rate_factor acc1
    none lane.vehicles
  { lane with
    accident := acc1
    vehicles := moved.filter (fun v => !(isOffScreen v)) }

/-- A `TrafficLight` of pleasegod2.py (no adaptive history; `cycle_time`
and `timer` are set by `start_countdown`). -/
structure Pg2Light where
  direction : Side
  state : LState
  timer : ℚ
  cycle_time : ℚ
  countdown_active : Bool
deriving DecidableEq

/-- `TrafficLight.update(dt, vehicles_present, has_accident)` of
pleasegod2.py: an accident forces a green light straight to red, no
vehicles force any non-red light to red, otherwise an active countdown is
decremented with green→yellow→red transitions (`YELLOW_TIME = 3`). -/
def pg2LightUpdate (dt : ℚ) (vehicles_present : Bool) (has_accident : Bool)
    (L : Pg2Light) : Pg2Light :=
  if has_accident = true ∧ L.state = LState.green then
    { L with state := LState.red, timer := 0, countdown_active := false }
  else if vehicles_present = false ∧ L.state ≠ LState.red then
    { L with state := LState.red, timer := 0, countdown_active := false }
  else if 0 < L.timer ∧ L.countdown_active = true then
    let timer1 := L.timer - dt
    if timer1 ≤ 0 then
      if L.state = LState.green then
        { L with state := LState.yellow, timer := 3 }
      else if L.state = LState.yellow then
        { L with state := LState.red, timer := 0 }
      else
        { L with timer := timer1 }
    else
      { L with timer := timer1 }
  else L

/-! ### pleasegod2.py: the density-based priority decision -/

/-- Per-side vehicle count over the intersection's lanes (the loop body of
`TrafficSystem.calculate_densities`). -/
def pg2CountVehicles (lanes : Side → List Pg2Lane) (s : Side) : ℕ :=
  ((lanes s).map (fun lane => lane.vehicles.length)).sum

/-- Total vehicle count over the four sides. -/
def pg2TotalVehicles (lanes : Side → List Pg2Lane) : ℕ :=
  (sidesList.map (pg2CountVehicles lanes)).sum

/-- `TrafficSystem.calculate_densities`: raw counts, converted to ratios of
the total only when the total is positive. -/
def pg2Densities (lanes : Side → List Pg2Lane) (s : Side) : ℚ :=
  if 0 < pg2TotalVehicles lanes then
    (pg2CountVehicles lanes s : ℚ) / (pg2TotalVehicles lanes : ℚ)
  else (pg2CountVehicles lanes s : ℚ)

/-- `Intersection.check_for_accidents` for one side. -/
def pg2CheckAccidents (lanes : Side → List Pg2Lane) (s : Side) : Bool :=
  (lanes s).any pg2HasActiveAccident

/-- `Intersection.set_timing`: clamp to `[MIN_GREEN_TIME, MAX_GREEN_TIME]`
= `[10, 30]`. -/
def pg2SetTiming (green_time : ℚ) : ℚ := max 10 (min 30 green_time)

/-- One step of the best-direction loop in
`determine_traffic_flow_priorities`: an accident-free side with density
strictly above the running maximum becomes the new best. -/
def bestStep (dens : Side → ℚ) (acc : Side → Bool) (p : ℚ × Option Side)
    (s : Side) : ℚ × Option Side :=
  if acc s = false ∧ p.1 < dens s then (dens s, some s) else p

/-- The whole best-direction loop, over sides in order N, S, E, W starting
from `max_density = 0`, `best_direction = None`. -/
def pg2BestDirection (dens : Side → ℚ) (acc : Side → Bool) : ℚ × Option Side :=
  sidesList.foldl (bestStep dens acc) (0, none)

/-- `TrafficSystem.determine_traffic_flow_priorities`: all sides default to
red; the winning side's axis goes green except for sides with their own
accident; the intersection timing is set from the winner's density. The
result is the per-side light states together with the `set_timing` value
(None when no direction wins). -/
def pg2DeterminePriorities (lanes : Side → List Pg2Lane) :
    (Side → LState) × Option ℚ :=
  let acc := pg2CheckAccidents lanes
  let dens := pg2Densities lanes
  match (pg2BestDirection dens acc).2 with
  | none => (fun _ => LState.red, none)
  | some b =>
    if b = Side.N ∨ b = Side.S then
      (fun s =>
        match s with
        | Side.N => if acc Side.N then LState.red else LState.green
        | Side.S => if acc Side.S then LState.red else LState.green
        | Side.E => LState.red
        | Side.W => LState.red,
       some (pg2SetTiming (10 + (30 - 10) * dens b)))
    else
      (fun s =>
        match s with
        | Side.E => if acc Side.E then LState.red else LState.green
        | Side.W => if acc Side.W then LState.red else LState.green
        | Side.N => LState.red
        | Side.S => LState.red,
       some (pg2SetTiming (10 + (30 - 10) * dens b)))

/-! ### Specification-side definitions (written from the spec's words) -/

/-- The green-time formula as the specification words it:
`clamp(min_green + min(3*v, 20) + approach_bonus + performance_adjustment,
min_green, max_green)` with the East-West-only approach bonus and the
threshold adjustment on the mean of the stored clearance ratios. -/
def greenTimeSpec (dir : Side) (hist : List ℚ)
    (vehicle_count approaching_count : ℕ) : ℤ :=
  let approach_bonus : ℤ :=
    if dir = Side.E ∨ dir = Side.W then min (2 * (approaching_count : ℤ)) 10 else 0
  let avg : ℚ := hist.sum / (hist.length : ℚ)
  let performance_adjustment : ℤ :=
    if avg < 7 / 10 then 5 else if 9 / 10 < avg then -3 else 0
  max 10 (min (10 + min (3 * (vehicle_count : ℤ)) 20 + approach_bonus +
    performance_adjustment) 45)

/-- The per-side light states the specification prescribes once side `b` has
won the priority decision: the winner's axis is green except that a side
with its own active incident is red, and the other axis is red. -/
def pg2ClaimStates (acc : Side → Bool) (b : Side) : Side → LState :=
  fun s =>
    if axisOf s = axisOf b then
      (if acc s then LState.red else LState.green)
    else LState.red

/-! ### Concrete states used by counterexamples and witnesses -/

/-- An idle (red, no countdown, empty history) app8 traffic light. -/
def mkRedLight (dir : Side) : App8Light :=
  ⟨dir, LState.red, 0, 10, false, 0, 0, []⟩

/-- A yellow light one time unit from expiry, countdown running. -/
def c3Light : App8Light := ⟨Side.N, LState.yellow, 1, 10, true, 0, 0, []⟩

/-- A green light one time unit from expiry, countdown running. -/
def c3GreenLight : App8Light := ⟨Side.N, LState.green, 1, 10, true, 3, 0, []⟩

/-- A pleasegod2 yellow light one time unit from expiry, countdown running. -/
def c3PgYellow : Pg2Light := ⟨Side.N, LState.yellow, 1, 10, true⟩

/-- A pleasegod2 green light one time unit from expiry, countdown running. -/
def c3PgGreen : Pg2Light := ⟨Side.N, LState.green, 1, 10, true⟩

/-- An eastbound lane queue: a Car 32 pixels ahead of a Motorcycle. -/
def c4Vehicles : List Vehicle :=
  [⟨32, 0, Side.E, VType.Car⟩, ⟨0, 0, Side.E, VType.Motorcycle⟩]

/-- Junction 0 with one Car on its West-side entry lane, lights idle. -/
def c5J0 : App8JunctionEW :=
  ⟨[[], []], [[⟨100, 399, Side.E, VType.Car⟩], []],
   mkRedLight Side.E, mkRedLight Side.W⟩

/-- Junction 1 with one westbound Car at x = 400, i.e. within the 200-pixel
approach window of junction 0 (x = 341), lights idle. -/
def c5J1 : App8JunctionEW :=
  ⟨[[], [⟨400, 369, Side.W, VType.Car⟩]], [[], []],
   mkRedLight Side.E, mkRedLight Side.W⟩

/-- A fresh East-side lane of the single-junction variant. -/
def c7Lane0 : Pg2Lane :=
  ⟨0, Side.E, 1, 587, 399, Side.W, 924, 399, [], none, 1⟩

/-- The same lane after a first successful `place_accident`. -/
def c7Lane : Pg2Lane := (pg2PlaceAccident c7Lane0 (some (600, 399))).2

/-- An East-side lane with one westbound Car and an active accident, its
flow-rate factor at 0 as `place_accident` leaves it. -/
def c8Lane : Pg2Lane :=
  ⟨0, Side.E, 1, 587, 399, Side.W, 924, 399,
   [⟨700, 399, Side.W, VType.Car⟩],
   some ⟨600, 399, Side.E, 1, true, 0, true⟩, 0⟩

/-- A legal-entry app8 West lane (lane 0) with an empty queue. -/
def c6AppLane : App8Lane := ⟨0, Side.W, 0, Side.E, 100, 399, []⟩

/-- An illegal-entry app8 West lane (lane 1). -/
def c6AppLaneBad : App8Lane := ⟨0, Side.W, 1, Side.E, 100, 429, []⟩

/-- A legal-entry pleasegod2 East lane (lane 1) with an empty queue. -/
def c6PgLane : Pg2Lane :=
  ⟨0, Side.E, 1, 587, 399, Side.W, 924, 399, [], none, 1⟩

/-- A North lane holding two southbound Cars, no accident. -/
def c2LaneN : Pg2Lane :=
  ⟨0, Side.N, 0, 512, 234, Side.S, 512, 100,
   [⟨512, 150, Side.S, VType.Car⟩, ⟨512, 105, Side.S, VType.Car⟩], none, 1⟩

/-- An East lane holding one westbound Bus, no accident. -/
def c2LaneE : Pg2Lane :=
  ⟨0, Side.E, 1, 587, 399, Side.W, 924, 399,
   [⟨800, 399, Side.W, VType.Bus⟩], none, 1⟩

/-- A single-junction lane layout: two Cars from the North, one Bus from
the East, no incidents anywhere. -/
def c2Lanes : Side → List Pg2Lane
| Side.N => [c2LaneN]
| Side.E => [c2LaneE]
| _ => []

/-! ## Theorems -/

/-- C1: for every vehicle count, approaching count and recorded (nonempty)
performance history, app8's `calculate_green_time` equals the
specification's clamp formula with the East-West-only approach bonus and
the threshold performance adjustment, and its value always lies in
`[min_green, max_green] = [10, 45]`. -/
theorem claim1_green_time_formula (dir : Side) (hist : List ℚ) (v a : ℕ) :
    (hist ≠ [] → app8CalculateGreenTime dir hist v a = greenTimeSpec dir hist v a)
    ∧ 10 ≤ app8CalculateGreenTime dir hist v a
    ∧ app8CalculateGreenTime dir hist v a ≤ 45 := by
  refine ⟨?_, ?_, ?_⟩
  · intro h
    simp only [app8CalculateGreenTime, greenTimeSpec, get_average_performance,
      calculate_performance_adjustment, if_neg h]
    rw [mul_comm (v : ℤ) 3, mul_comm (a : ℤ) 2]
    split_ifs <;> omega
  · simp only [app8CalculateGreenTime]
    omega
  · simp only [app8CalculateGreenTime]
    omega

/-- C1 witness: at an East light with history [1/2] (average below 0.7),
2 queued and 1 approaching vehicle, the formula and the bounds hold. -/
theorem claim1_witness :
    app8CalculateGreenTime Side.E [1/2] 2 1 = greenTimeSpec Side.E [1/2] 2 1
    ∧ 10 ≤ app8CalculateGreenTime Side.E [1/2] 2 1
    ∧ app8CalculateGreenTime Side.E [1/2] 2 1 ≤ 45 :=
  ⟨(claim1_green_time_formula Side.E [1/2] 2 1).1 (by simp),
   (claim1_green_time_formula Side.E [1/2] 2 1).2.1,
   (claim1_green_time_formula Side.E [1/2] 2 1).2.2⟩

/-- C9: with an empty performance history `get_average_performance` returns
1.0, which exceeds the 0.9 threshold, so the -3 adjustment applies from the
first cycle: a North/South light computes
`clamp(min_green + min(3v, 20) - 3, min_green, max_green)`; at v = 1 this
(10) differs from the unadjusted value (13). -/
theorem claim9_empty_history_adjustment :
    get_average_performance [] = 1
    ∧ (9 : ℚ) / 10 < 1
    ∧ (∀ v a : ℕ,
        app8CalculateGreenTime Side.N [] v a =
          min (max (10 + min (3 * (v : ℤ)) 20 - 3) 10) 45
        ∧ app8CalculateGreenTime Side.S [] v a =
          min (max (10 + min (3 * (v : ℤ)) 20 - 3) 10) 45)
    ∧ app8CalculateGreenTime Side.N [] 1 0 = 10
    ∧ app8CalculateGreenTime Side.N [] 1 0 ≠ min (max (10 + min (3 * 1) 20) 10) 45 := by
  have h0 : get_average_performance ([] : List ℚ) = 1 := rfl
  have h1 : ¬((1 : ℚ) < 7 / 10) := by norm_num
  have h2 : (9 : ℚ) / 10 < 1 := by norm_num
  have key : ∀ (d : Side), ¬(d = Side.E ∨ d = Side.W) → ∀ v a : ℕ,
      app8CalculateGreenTime d [] v a =
        min (max (10 + min (3 * (v : ℤ)) 20 - 3) 10) 45 := by
    intro d hd v a
    simp only [app8CalculateGreenTime, calculate_performance_adjustment, h0,
      if_neg h1, if_pos h2, if_neg hd]
    rw [mul_comm (v : ℤ) 3]
    omega
  have hN : ¬(Side.N = Side.E ∨ Side.N = Side.W) := by decide
  have hS : ¬(Side.S = Side.E ∨ Side.S = Side.W) := by decide
  refine ⟨rfl, h2, fun v a => ⟨key Side.N hN v a, key Side.S hS v a⟩, ?_, ?_⟩
  · rw [key Side.N hN 1 0]
    omega
  · rw [key Side.N hN 1 0]
    omega

/-- C3 counterexample: a yellow light with an active countdown and timer 1,
updated with dt = 1 and vehicles present, turns red with timer 0 but its
countdown flag is NOT cleared (it stays true), contradicting the claim that
the yellow-to-red transition leaves the countdown inactive. -/
theorem claim3_counterexample :
    (app8LightUpdate 1 true 0 c3Light).state = LState.red
    ∧ (app8LightUpdate 1 true 0 c3Light).timer = 0
    ∧ ¬ (app8LightUpdate 1 true 0 c3Light).countdown_active = false := by
  refine ⟨?_, ?_, ?_⟩ <;>
    simp [app8LightUpdate, c3Light, update_performance]

/-- C3 (amended), covering both variants' `TrafficLight.update`: with no
vehicles present the light is red afterwards, and if it was not already red
it is forced red immediately with timer 0 and the countdown cleared;
otherwise, when an active countdown's timer is decremented to at most 0, a
green light becomes yellow with the timer reset to the yellow duration (3),
and a yellow light becomes red with timer 0 while the countdown flag is
left unchanged (still set) - neither variant clears it on the
yellow-to-red transition; the flag is cleared only by the forced-red
paths: no vehicles present (both variants) or, in the incident-aware
variant, an active incident on a green light. -/
theorem claim3_update_transitions (dt : ℚ) (cur : ℤ) (L : App8Light)
    (P : Pg2Light) :
    (((app8LightUpdate dt false cur L).state = LState.red
      ∧ (L.state ≠ LState.red →
          (app8LightUpdate dt false cur L).timer = 0
          ∧ (app8LightUpdate dt false cur L).countdown_active = false))
    ∧ (L.countdown_active = true → 0 < L.timer → L.timer - dt ≤ 0 →
        ((L.state = LState.green →
            (app8LightUpdate dt true cur L).state = LState.yellow
            ∧ (app8LightUpdate dt true cur L).timer = 3)
         ∧ (L.state = LState.yellow →
            (app8LightUpdate dt true cur L).state = LState.red
            ∧ (app8LightUpdate dt true cur L).timer = 0
            ∧ (app8LightUpdate dt true cur L).countdown_active = true))))
    ∧ ((∀ hacc : Bool,
          (pg2LightUpdate dt false hacc P).state = LState.red
          ∧ (P.state ≠ LState.red →
              (pg2LightUpdate dt false hacc P).timer = 0
              ∧ (pg2LightUpdate dt false hacc P).countdown_active = false))
      ∧ (P.countdown_active = true → 0 < P.timer → P.timer - dt ≤ 0 →
          ((P.state = LState.green →
              (pg2LightUpdate dt true false P).state = LState.yellow
              ∧ (pg2LightUpdate dt true false P).timer = 3)
           ∧ (∀ hacc : Bool, P.state = LState.yellow →
              (pg2LightUpdate dt true hacc P).state = LState.red
              ∧ (pg2LightUpdate dt true hacc P).timer = 0
              ∧ (pg2LightUpdate dt true hacc P).countdown_active = true)))
      ∧ (P.state = LState.green →
          (pg2LightUpdate dt true true P).state = LState.red
          ∧ (pg2LightUpdate dt true true P).timer = 0
          ∧ (pg2LightUpdate dt true true P).countdown_active = false)) := by
  refine ⟨⟨⟨?_, ?_⟩, ?_⟩, ?_, ?_, ?_⟩
  · by_cases h : L.state = LState.red
    · simp only [app8LightUpdate]
      split_ifs <;> simp_all
    · simp [app8LightUpdate, h]
  · intro h
    simp [app8LightUpdate, h]
  · intro hc ht hd
    constructor
    · intro hg
      simp only [app8LightUpdate]
      split_ifs <;> first
        | exact ⟨rfl, rfl⟩
        | simp_all
    · intro hy
      simp only [app8LightUpdate]
      split_ifs <;> first
        | exact ⟨rfl, rfl, rfl⟩
        | simp_all
  · intro hacc
    constructor
    · simp only [pg2LightUpdate]
      split_ifs <;> simp_all
    · intro h
      simp only [pg2LightUpdate]
      split_ifs <;> simp_all
  · intro hc ht hd
    constructor
    · intro hg
      simp only [pg2LightUpdate]
      split_ifs <;> first
        | exact ⟨rfl, rfl⟩
        | simp_all
    · intro hacc hy
      simp only [pg2LightUpdate]
      split_ifs <;> first
        | exact ⟨rfl, rfl, rfl⟩
        | simp_all
  · intro hg
    simp [pg2LightUpdate, hg]

/-- C3 witness: the amended transition rules evaluated on concrete lights
of both variants: green lights at timer 1 with dt = 1 turn yellow with
timer 3; yellow lights turn red with timer 0 and the flag still set (in the
incident-aware variant even with an incident flagged); the no-vehicles rule
forces both to red; and pleasegod2's incident rule forces a green light red
with the flag cleared. -/
theorem claim3_witness :
    ((app8LightUpdate 1 true 0 c3GreenLight).state = LState.yellow
      ∧ (app8LightUpdate 1 true 0 c3GreenLight).timer = 3)
    ∧ ((app8LightUpdate 1 true 0 c3Light).state = LState.red
      ∧ (app8LightUpdate 1 true 0 c3Light).timer = 0
      ∧ (app8LightUpdate 1 true 0 c3Light).countdown_active = true)
    ∧ (app8LightUpdate 1 false 0 c3GreenLight).timer = 0
    ∧ ((pg2LightUpdate 1 true false c3PgGreen).state = LState.yellow
      ∧ (pg2LightUpdate 1 true false c3PgGreen).timer = 3)
    ∧ ((pg2LightUpdate 1 true true c3PgYellow).state = LState.red
      ∧ (pg2LightUpdate 1 true true c3PgYellow).timer = 0
      ∧ (pg2LightUpdate 1 true true c3PgYellow).countdown_active = true)
    ∧ (pg2LightUpdate 1 false true c3PgYellow).timer = 0
    ∧ (pg2LightUpdate 1 true true c3PgGreen).countdown_active = false := by
  have ha := claim3_update_transitions 1 0 c3GreenLight c3PgGreen
  have hb := claim3_update_transitions 1 0 c3Light c3PgYellow
  refine ⟨(ha.1.2 rfl (by norm_num [c3GreenLight]) (by norm_num [c3GreenLight])).1 rfl,
    (hb.1.2 rfl (by norm_num [c3Light]) (by norm_num [c3Light])).2 rfl,
    ((ha.1.1).2 (by decide)).1,
    (ha.2.2.1 rfl (by norm_num [c3PgGreen]) (by norm_num [c3PgGreen])).1 rfl,
    (hb.2.2.1 rfl (by norm_num [c3PgYellow]) (by norm_num [c3PgYellow])).2 true rfl,
    ((hb.2.1 true).2 (by decide)).1,
    (ha.2.2.2 rfl).2.2⟩

/-- C7: `place_accident` on a lane that already holds an active incident
fails and changes nothing, so the existing incident and the lane's
flow-rate factor (0 while the incident is active) are untouched. -/
theorem claim7_single_active_incident (lane : Pg2Lane) (pos : Option (ℚ × ℚ))
    (h : pg2HasActiveAccident lane = true) :
    pg2PlaceAccident lane pos = (false, lane)
    ∧ (lane.flow_rate_factor = 0 →
        (pg2PlaceAccident lane pos).2.flow_rate_factor = 0) := by
  have hacc : pg2AccActive lane.accident = true := by
    cases hl : lane.accident <;>
      simp_all [pg2HasActiveAccident, pg2AccActive, hl]
  refine ⟨?_, ?_⟩
  · simp [pg2PlaceAccident, hacc]
  · intro hf
    simp [pg2PlaceAccident, hacc, hf]

/-- C7 witness: placing an accident on a fresh lane and then attempting a
second placement: the second call fails, returns the lane unchanged, and
the flow-rate factor is still 0. -/
theorem claim7_witness :
    pg2PlaceAccident c7Lane none = (false, c7Lane)
    ∧ (pg2PlaceAccident c7Lane none).2.flow_rate_factor = 0 :=
  ⟨(claim7_single_active_incident c7Lane none (by decide)).1,
   (claim7_single_active_incident c7Lane none (by decide)).2 (by decide)⟩

/-- Helper: app8's `place_vehicle` succeeds exactly on the designated entry
lane, appends one vehicle on success and mutates nothing on failure. -/
theorem app8PlaceVehicle_spec (la : App8Lane) (vt : VType) :
    ((app8PlaceVehicle la vt).1 = true ↔ la.lane_number = entryLane la.side)
    ∧ ((app8PlaceVehicle la vt).1 = true →
        (app8PlaceVehicle la vt).2.vehicles =
          la.vehicles ++
            [spawnVehicle la.spawnX la.spawnY la.direction la.vehicles vt])
    ∧ ((app8PlaceVehicle la vt).1 = false → (app8PlaceVehicle la vt).2 = la) := by
  obtain ⟨jid, side, ln, dir, sx, sy, vs⟩ := la
  cases side <;>
    by_cases h : ln = 0 <;>
      by_cases h1 : ln = 1 <;>
        simp_all [app8PlaceVehicle, entryLane]

/-- Helper: pleasegod2's `place_vehicle` has the same entry-lane rule. -/
theorem pg2PlaceVehicle_spec (lp : Pg2Lane) (vt : VType) :
    ((pg2PlaceVehicle lp vt).1 = true ↔ lp.lane_number = entryLane lp.side)
    ∧ ((pg2PlaceVehicle lp vt).1 = true →
        (pg2PlaceVehicle lp vt).2.vehicles =
          lp.vehicles ++
            [spawnVehicle lp.spawnX lp.spawnY lp.direction lp.vehicles vt])
    ∧ ((pg2PlaceVehicle lp vt).1 = false → (pg2PlaceVehicle lp vt).2 = lp) := by
  obtain ⟨jid, side, ln, px, py, dir, sx, sy, vs, acc, fr⟩ := lp
  cases side <;>
    by_cases h : ln = 0 <;>
      by_cases h1 : ln = 1 <;>
        simp_all [pg2PlaceVehicle, entryLane]

/-- C6: in both variants `place_vehicle` succeeds (appending exactly one
vehicle) precisely when the lane index is the designated entry lane of its
side (W→0, E→1, N→0, S→1); on every other combination it fails and leaves
the lane's vehicle list unchanged. -/
theorem claim6_entry_lane_exclusivity (la : App8Lane) (lp : Pg2Lane) (vt : VType) :
    (((app8PlaceVehicle la vt).1 = true ↔ la.lane_number = entryLane la.side)
      ∧ ((app8PlaceVehicle la vt).1 = true →
          (app8PlaceVehicle la vt).2.vehicles =
            la.vehicles ++
              [spawnVehicle la.spawnX la.spawnY la.direction la.vehicles vt])
      ∧ ((app8PlaceVehicle la vt).1 = false → (app8PlaceVehicle la vt).2 = la))
    ∧ (((pg2PlaceVehicle lp vt).1 = true ↔ lp.lane_number = entryLane lp.side)
      ∧ ((pg2PlaceVehicle lp vt).1 = true →
          (pg2PlaceVehicle lp vt).2.vehicles =
            lp.vehicles ++
              [spawnVehicle lp.spawnX lp.spawnY lp.direction lp.vehicles vt])
      ∧ ((pg2PlaceVehicle lp vt).1 = false → (pg2PlaceVehicle lp vt).2 = lp)) :=
  ⟨app8PlaceVehicle_spec la vt, pg2PlaceVehicle_spec lp vt⟩

/-- C6 witness: placing a Car in the legal app8 West lane 0 appends it,
placing in West lane 1 fails and leaves the lane unchanged, and the legal
pleasegod2 East lane 1 accepts a Car. -/
theorem claim6_witness :
    (app8PlaceVehicle c6AppLane VType.Car).2.vehicles =
      c6AppLane.vehicles ++
        [spawnVehicle c6AppLane.spawnX c6AppLane.spawnY c6AppLane.direction
          c6AppLane.vehicles VType.Car]
    ∧ (app8PlaceVehicle c6AppLaneBad VType.Car).2 = c6AppLaneBad
    ∧ (pg2PlaceVehicle c6PgLane VType.Car).2.vehicles =
      c6PgLane.vehicles ++
        [spawnVehicle c6PgLane.spawnX c6PgLane.spawnY c6PgLane.direction
          c6PgLane.vehicles VType.Car] :=
  ⟨(claim6_entry_lane_exclusivity c6AppLane c6PgLane VType.Car).1.2.1 (by decide),
   (claim6_entry_lane_exclusivity c6AppLaneBad c6PgLane VType.Car).1.2.2 (by decide),
   (claim6_entry_lane_exclusivity c6AppLane c6PgLane VType.Car).2.2.1 (by decide)⟩

/-- Helper: a pleasegod2 vehicle handed a zero factor does not move. -/
theorem pg2VehicleUpdate_zero (dt : ℚ) (m : Bool) (v : Vehicle) :
    pg2VehicleUpdate dt m 0 v = v := by
  obtain ⟨x, y, d, t⟩ := v
  cases m <;> cases d <;> simp [pg2VehicleUpdate]

/-- Helper: `Accident.update` only touches the flash fields. -/
theorem pg2AccidentUpdate_core (dt : ℚ) (a : Pg2Accident) :
    (pg2AccidentUpdate dt a).active = a.active
    ∧ (pg2AccidentUpdate dt a).x = a.x
    ∧ (pg2AccidentUpdate dt a).y = a.y := by
  simp only [pg2AccidentUpdate]
  split_ifs <;> exact ⟨rfl, rfl, rfl⟩

/-- Helper: with an active accident and factor 0, the vehicle loop of
pleasegod2's `Lane.update` maps every vehicle to itself. -/
theorem pg2LaneMove_zero (dt : ℚ) (light : LState) (dir : Side)
    (acc : Option Pg2Accident) (h : pg2AccActive acc = true) :
    ∀ (vs : List Vehicle) (prev : Option Vehicle),
      pg2LaneMove dt light dir 0 acc prev vs = vs := by
  intro vs
  induction vs with
  | nil => intro prev; rfl
  | cons v t ih =>
    intro prev
    simp only [pg2LaneMove, h, if_true, mul_zero, pg2VehicleUpdate_zero]
    exact congrArg (v :: ·) (ih (some v))

/-- C8: during `Lane.update` of a lane whose incident is active (and whose
flow-rate factor is 0, as `place_accident` leaves it) no vehicle moves:
every vehicle's effective speed is 0 even under a green light, so the
resulting vehicle list is exactly the original one (up to the off-screen
sweep, which sees unchanged positions). -/
theorem claim8_incident_freezes_lane (dt : ℚ) (light : LState) (lane : Pg2Lane)
    (h1 : pg2HasActiveAccident lane = true) (h2 : lane.flow_rate_factor = 0) :
    (pg2LaneUpdate dt light lane).vehicles =
      lane.vehicles.filter (fun v => !(isOffScreen v)) := by
  have hacc : pg2AccActive lane.accident = true := by
    cases hl : lane.accident <;>
      simp_all [pg2HasActiveAccident, pg2AccActive, hl]
  have hacc1 : pg2AccActive (lane.accident.map (pg2AccidentUpdate dt)) = true := by
    cases hl : lane.accident with
    | none => simp [hl, pg2AccActive] at hacc
    | some a =>
      simp only [hl, pg2AccActive] at hacc
      simp only [hl, Option.map_some', pg2AccActive]
      rw [(pg2AccidentUpdate_core dt a).1]
      exact hacc
  simp only [pg2LaneUpdate, hacc, if_true, h2]
  rw [pg2LaneMove_zero dt light lane.direction _ hacc1 lane.vehicles none]

/-- C8 witness: a lane with one Car, a green light and an active accident
(flow-rate factor 0) keeps its vehicle list identical after an update. -/
theorem claim8_witness :
    (pg2LaneUpdate 1 LState.green c8Lane).vehicles =
      c8Lane.vehicles.filter (fun v => !(isOffScreen v)) :=
  claim8_incident_freezes_lane 1 LState.green c8Lane (by decide) rfl

/-- Helper: app8's `Vehicle.update` never reads `dt`. -/
theorem app8VehicleUpdate_dt (dt1 dt2 : ℚ) (m : Bool) (v : Vehicle) :
    app8VehicleUpdate dt1 m v = app8VehicleUpdate dt2 m v := rfl

/-- Helper: pleasegod2's `Vehicle.update` never reads `dt`. -/
theorem pg2VehicleUpdate_dt (dt1 dt2 : ℚ) (m : Bool) (f : ℚ) (v : Vehicle) :
    pg2VehicleUpdate dt1 m f v = pg2VehicleUpdate dt2 m f v := rfl

/-- Helper: the app8 vehicle loop is independent of `dt`. -/
theorem app8LaneMove_dt (dt1 dt2 : ℚ) (light : LState) (dir : Side) :
    ∀ (vs : List Vehicle) (prev : Option Vehicle),
      app8LaneMove dt1 light dir prev vs = app8LaneMove dt2 light dir prev vs := by
  intro vs
  induction vs with
  | nil => intro prev; rfl
  | cons v t ih =>
    intro prev
    simp only [app8LaneMove]
    rw [app8VehicleUpdate_dt dt1 dt2]
    exact congrArg (List.cons _) (ih _)

/-- Helper: the pleasegod2 vehicle loop with a fixed accident value is
independent of `dt`. -/
theorem pg2LaneMove_dt (dt1 dt2 : ℚ) (light : LState) (dir : Side) (factor : ℚ)
    (acc : Option Pg2Accident) :
    ∀ (vs : List Vehicle) (prev : Option Vehicle),
      pg2LaneMove dt1 light dir factor acc prev vs =
        pg2LaneMove dt2 light dir factor acc prev vs := by
  intro vs
  induction vs with
  | nil => intro prev; rfl
  | cons v t ih =>
    intro prev
    simp only [pg2LaneMove]
    rw [pg2VehicleUpdate_dt dt1 dt2]
    exact congrArg (List.cons _) (ih _)

/-- Helper: `can_move_forward` only reads the accident's active flag and
position. -/
theorem pg2CanMove_congr (a b : Pg2Accident) (h1 : a.active = b.active)
    (h2 : a.x = b.x) (h3 : a.y = b.y) (dir : Side) (prev : Option Vehicle)
    (v : Vehicle) :
    pg2CanMove (some a) dir prev v = pg2CanMove (some b) dir prev v := by
  simp only [pg2CanMove, h1, h2, h3]

/-- Helper: the pleasegod2 vehicle loop is unchanged when both `dt` and the
accident's flash state change, as long as the accident's active flag and
position agree. -/
theorem pg2LaneMove_congr (dt1 dt2 : ℚ) (light : LState) (dir : Side)
    (factor : ℚ) (a b : Pg2Accident) (h1 : a.active = b.active)
    (h2 : a.x = b.x) (h3 : a.y = b.y) :
    ∀ (vs : List Vehicle) (prev : Option Vehicle),
      pg2LaneMove dt1 light dir factor (some a) prev vs =
        pg2LaneMove dt2 light dir factor (some b) prev vs := by
  intro vs
  induction vs with
  | nil => intro prev; rfl
  | cons v t ih =>
    intro prev
    simp only [pg2LaneMove, pg2AccActive]
    rw [pg2CanMove_congr a b h1 h2 h3 dir prev v]
    simp only [h1]
    rw [pg2VehicleUpdate_dt dt1 dt2]
    exact congrArg (List.cons _) (ih _)

/-- Helper: the vehicle list produced by pleasegod2's `Lane.update` does not
depend on `dt` (only the accident's cosmetic flash state does). -/
theorem pg2LaneUpdate_vehicles_dt (dt1 dt2 : ℚ) (light : LState)
    (lane : Pg2Lane) :
    (pg2LaneUpdate dt1 light lane).vehicles =
      (pg2LaneUpdate dt2 light lane).vehicles := by
  cases hl : lane.accident with
  | none =>
    simp only [pg2LaneUpdate, hl, pg2AccActive, Bool.false_eq_true, if_false]
    rw [pg2LaneMove_dt dt1 dt2]
  | some a =>
    cases ha : a.active with
    | false =>
      simp only [pg2LaneUpdate, hl, pg2AccActive, ha, Bool.false_eq_true,
        if_false]
      rw [pg2LaneMove_dt dt1 dt2]
    | true =>
      simp only [pg2LaneUpdate, hl, pg2AccActive, ha, if_true,
        Option.map_some']
      rw [pg2LaneMove_congr dt1 dt2 light lane.direction lane.flow_rate_factor
        (pg2AccidentUpdate dt1 a) (pg2AccidentUpdate dt2 a)
        (by rw [(pg2AccidentUpdate_core dt1 a).1, (pg2AccidentUpdate_core dt2 a).1])
        (by rw [(pg2AccidentUpdate_core dt1 a).2.1, (pg2AccidentUpdate_core dt2 a).2.1])
        (by rw [(pg2AccidentUpdate_core dt1 a).2.2, (pg2AccidentUpdate_core dt2 a).2.2])]

/-- C10: `Vehicle.update` ignores its `dt` argument in both variants - a
permitted vehicle always advances by exactly its class speed (times the
passed flow factor), so lane updates that differ only in `dt` produce
identical vehicle positions. -/
theorem claim10_dt_is_ignored (dt1 dt2 : ℚ) (m : Bool) (f : ℚ) (v : Vehicle)
    (light : LState) (dir : Side) (vs : List Vehicle) (lane : Pg2Lane) :
    app8VehicleUpdate dt1 m v = app8VehicleUpdate dt2 m v
    ∧ pg2VehicleUpdate dt1 m f v = pg2VehicleUpdate dt2 m f v
    ∧ app8LaneUpdate dt1 light dir vs = app8LaneUpdate dt2 light dir vs
    ∧ (pg2LaneUpdate dt1 light lane).vehicles =
        (pg2LaneUpdate dt2 light lane).vehicles := by
  refine ⟨rfl, rfl, ?_, pg2LaneUpdate_vehicles_dt dt1 dt2 light lane⟩
  unfold app8LaneUpdate
  rw [app8LaneMove_dt dt1 dt2]

/-- Helper: in app8's vehicle loop, a vehicle that moved this tick had, at
the moment of its decision, a gap of at least its minimum distance to the
already-updated vehicle ahead of it. -/
theorem app8LaneMove_gap_aux (dt : ℚ) (light : LState) (dir : Side) :
    ∀ (vs : List Vehicle) (prev : Option Vehicle) (i : ℕ), i + 1 < vs.length →
      (app8LaneMove dt light dir prev vs).getD (i + 1) default ≠
        vs.getD (i + 1) default →
      app8MinDistance (vs.getD (i + 1) default) ≤
        axisDist dir ((app8LaneMove dt light dir prev vs).getD i default)
          (vs.getD (i + 1) default) := by
  intro vs
  induction vs with
  | nil =>
    intro prev i h
    simp at h
  | cons v t ih =>
    intro prev i h hne
    cases i with
    | zero =>
      cases t with
      | nil => simp at h
      | cons w t2 =>
        simp only [app8LaneMove, List.getD_cons_succ, List.getD_cons_zero]
          at hne ⊢
        by_contra hlt
        push_neg at hlt
        apply hne
        rw [if_pos hlt, ite_self]
        simp [app8VehicleUpdate]
    | succ j =>
      simp only [List.length_cons] at h
      simp only [app8LaneMove, List.getD_cons_succ] at hne ⊢
      exact ih (some _) j (by omega) hne

/-- Helper: a pleasegod2 vehicle whose gap to the (already-updated) vehicle
ahead is below its minimum distance cannot move, whatever the accident
state. -/
theorem pg2CanMove_blocked (acc : Option Pg2Accident) (dir : Side)
    (a v : Vehicle) (h : axisDist dir a v < (vLength v.vtype : ℚ) + 5) :
    pg2CanMove acc dir (some a) v = false := by
  cases dir with
  | E =>
    simp only [axisDist] at h
    simp_all [pg2CanMove]
  | W =>
    have h2 : |v.x - a.x| < (vLength v.vtype : ℚ) + 5 := by
      rw [abs_sub_comm]
      simpa [axisDist] using h
    simp_all [pg2CanMove]
  | S =>
    simp only [axisDist] at h
    simp_all [pg2CanMove]
  | N =>
    have h2 : |v.y - a.y| < (vLength v.vtype : ℚ) + 5 := by
      rw [abs_sub_comm]
      simpa [axisDist] using h
    simp_all [pg2CanMove]

/-- Helper: in pleasegod2's vehicle loop, a vehicle whose position changed
this tick had, at the moment of its decision, a gap of at least its minimum
distance to the already-updated vehicle ahead of it. -/
theorem pg2LaneMove_gap_aux (dt : ℚ) (light : LState) (dir : Side)
    (factor : ℚ) (acc : Option Pg2Accident) :
    ∀ (vs : List Vehicle) (prev : Option Vehicle) (i : ℕ), i + 1 < vs.length →
      (pg2LaneMove dt light dir factor acc prev vs).getD (i + 1) default ≠
        vs.getD (i + 1) default →
      (vLength ((vs.getD (i + 1) default).vtype) : ℚ) + 5 ≤
        axisDist dir
          ((pg2LaneMove dt light dir factor acc prev vs).getD i default)
          (vs.getD (i + 1) default) := by
  intro vs
  induction vs with
  | nil =>
    intro prev i h
    simp at h
  | cons v t ih =>
    intro prev i h hne
    cases i with
    | zero =>
      cases t with
      | nil => simp at h
      | cons w t2 =>
        simp only [pg2LaneMove, List.getD_cons_succ, List.getD_cons_zero]
          at hne ⊢
        by_contra hlt
        push_neg at hlt
        apply hne
        rw [pg2CanMove_blocked acc dir _ w hlt, ite_self]
        simp [pg2VehicleUpdate]
    | succ j =>
      simp only [List.length_cons] at h
      simp only [pg2LaneMove, List.getD_cons_succ] at hne ⊢
      exact ih (some _) j (by omega) hne

/-- C4 counterexample: an eastbound lane with a Car at x = 32 followed by
a Motorcycle at x = 0 under a green light: after one `Lane.update` the Car
is at 35 and the Motorcycle at 4, so the end-of-tick gap is 31 < 30 + 5 =
the Motorcycle's class length + spacing, even though the Motorcycle did
advance that tick - refuting the claimed end-of-tick spacing bound. -/
theorem claim4_counterexample :
    app8LaneUpdate 1 LState.green Side.E c4Vehicles =
      [⟨35, 0, Side.E, VType.Car⟩, ⟨4, 0, Side.E, VType.Motorcycle⟩]
    ∧ ¬ (app8MinDistance ⟨4, 0, Side.E, VType.Motorcycle⟩ ≤
          axisDist Side.E ⟨35, 0, Side.E, VType.Car⟩
            ⟨4, 0, Side.E, VType.Motorcycle⟩)
    ∧ (⟨4, 0, Side.E, VType.Motorcycle⟩ : Vehicle) ≠ c4Vehicles.getD 1 default := by
  refine ⟨?_, ?_, ?_⟩
  · norm_num [app8LaneUpdate, app8LaneMove, app8VehicleUpdate, app8MinDistance,
      axisDist, vLength, vSpeed, isOffScreen, c4Vehicles]
  · norm_num [app8MinDistance, axisDist, vLength]
  · norm_num [c4Vehicles]

/-- C4 (amended), covering both variants' `Lane.update`: the spacing
guarantee the code provides is taken at decision time, not at end of tick:
during the movement pass (before off-screen removal), every vehicle either
did not advance, or the distance between the already-moved vehicle ahead
and the vehicle's pre-move position was at least its class length +
spacing (5); the end-of-tick gap itself may be smaller, since a faster
trailing vehicle closes up after the check. Off-screen removal then
filters the moved list in both variants. -/
theorem claim4_spacing_at_decision (dt : ℚ) (light : LState) (dir : Side)
    (factor : ℚ) (acc : Option Pg2Accident) (lane : Pg2Lane)
    (vs : List Vehicle) (i : ℕ) (h : i + 1 < vs.length) :
    ((app8LaneMove dt light dir none vs).getD (i + 1) default ≠
        vs.getD (i + 1) default →
      app8MinDistance (vs.getD (i + 1) default) ≤
        axisDist dir ((app8LaneMove dt light dir none vs).getD i default)
          (vs.getD (i + 1) default))
    ∧ ((pg2LaneMove dt light dir factor acc none vs).getD (i + 1) default ≠
        vs.getD (i + 1) default →
      (vLength ((vs.getD (i + 1) default).vtype) : ℚ) + 5 ≤
        axisDist dir
          ((pg2LaneMove dt light dir factor acc none vs).getD i default)
          (vs.getD (i + 1) default))
    ∧ app8LaneUpdate dt light dir vs =
        (app8LaneMove dt light dir none vs).filter (fun v => !(isOffScreen v))
    ∧ (pg2LaneUpdate dt light lane).vehicles =
        (pg2LaneMove dt light lane.direction lane.flow_rate_factor
          (if pg2AccActive lane.accident then
            lane.accident.map (pg2AccidentUpdate dt)
          else lane.accident) none lane.vehicles).filter
          (fun v => !(isOffScreen v)) :=
  ⟨app8LaneMove_gap_aux dt light dir vs none i h,
   pg2LaneMove_gap_aux dt light dir factor acc vs none i h,
   rfl, rfl⟩

/-- C4 witness: in the counterexample lane the Motorcycle moved in both
variants, and the amended guarantee holds there: at decision time the
already-moved Car (x = 35 in app8, x = 41 in pleasegod2 through its
speed-scaling) was at least 30 + 5 away from the Motorcycle's pre-move
position x = 0. -/
theorem claim4_witness :
    (app8MinDistance (c4Vehicles.getD 1 default) ≤
      axisDist Side.E
        ((app8LaneMove 1 LState.green Side.E none c4Vehicles).getD 0 default)
        (c4Vehicles.getD 1 default))
    ∧ ((vLength ((c4Vehicles.getD 1 default).vtype) : ℚ) + 5 ≤
      axisDist Side.E
        ((pg2LaneMove 1 LState.green Side.E 1 none none c4Vehicles).getD 0 default)
        (c4Vehicles.getD 1 default)) :=
  ⟨(claim4_spacing_at_decision 1 LState.green Side.E 1 none c6PgLane c4Vehicles 0
      (by norm_num [c4Vehicles])).1
    (by norm_num [app8LaneMove, app8VehicleUpdate, app8MinDistance, axisDist,
      vLength, vSpeed, c4Vehicles]),
   (claim4_spacing_at_decision 1 LState.green Side.E 1 none c6PgLane c4Vehicles 0
      (by norm_num [c4Vehicles])).2.1
    (by norm_num [pg2LaneMove, pg2VehicleUpdate, pg2CanMove, pg2AccActive,
      axisDist, vLength, vSpeed, c4Vehicles])⟩

/-- C5 (amended): whenever East-West coordination runs for junction 0
(its own East-West count plus junction 1's vehicles approaching junction 0
is positive): if junction 1's raw East-West count exceeds 3, both of
junction 0's East-West lights are forced red with timer 0 and countdown
inactive; otherwise both are set green, and a light without an active
countdown starts a cycle sized by junction 0's East-West count PLUS the
vehicles in junction 1's East-West lanes approaching junction 0 (not by
the local count alone), while a light already counting down keeps its
timer. -/
theorem claim5_ew_coordination (j0 j1 : App8JunctionEW)
    (hrun : 0 < ewVehicleCount j0 + ewApproachingCount j1 0) :
    (3 < ewVehicleCount j1 →
      ((app8UpdateEWJ0 j0 j1).lightE.state = LState.red
        ∧ (app8UpdateEWJ0 j0 j1).lightE.timer = 0
        ∧ (app8UpdateEWJ0 j0 j1).lightE.countdown_active = false)
      ∧ ((app8UpdateEWJ0 j0 j1).lightW.state = LState.red
        ∧ (app8UpdateEWJ0 j0 j1).lightW.timer = 0
        ∧ (app8UpdateEWJ0 j0 j1).lightW.countdown_active = false))
    ∧ (¬ 3 < ewVehicleCount j1 →
      ((app8UpdateEWJ0 j0 j1).lightE.state = LState.green
        ∧ (app8UpdateEWJ0 j0 j1).lightW.state = LState.green)
      ∧ (j0.lightE.countdown_active = false →
          (app8UpdateEWJ0 j0 j1).lightE.timer =
            ((app8CalculateGreenTime j0.lightE.direction
              j0.lightE.performance_history
              (ewVehicleCount j0 + ewApproachingCount j1 0) 0 : ℤ) : ℚ)
          ∧ (app8UpdateEWJ0 j0 j1).lightE.countdown_active = true)
      ∧ (j0.lightW.countdown_active = false →
          (app8UpdateEWJ0 j0 j1).lightW.timer =
            ((app8CalculateGreenTime j0.lightW.direction
              j0.lightW.performance_history
              (ewVehicleCount j0 + ewApproachingCount j1 0) 0 : ℤ) : ℚ)
          ∧ (app8UpdateEWJ0 j0 j1).lightW.countdown_active = true)
      ∧ (j0.lightE.countdown_active = true →
          (app8UpdateEWJ0 j0 j1).lightE.timer = j0.lightE.timer)
      ∧ (j0.lightW.countdown_active = true →
          (app8UpdateEWJ0 j0 j1).lightW.timer = j0.lightW.timer)) := by
  constructor
  · intro hgt
    simp only [app8UpdateEWJ0, if_pos hrun, app8CoordEWJ0, if_pos hgt]
    simp
  · intro hgt
    simp only [app8UpdateEWJ0, if_pos hrun, app8CoordEWJ0, if_neg hgt]
    refine ⟨⟨?_, ?_⟩, ?_, ?_, ?_, ?_⟩
    · split_ifs <;> simp [app8StartCycle]
    · split_ifs <;> simp [app8StartCycle]
    · intro hE
      simp only [hE]
      simp [app8StartCycle]
    · intro hW
      simp only [hW]
      simp [app8StartCycle]
    · intro hE
      simp only [hE]
      simp
    · intro hW
      simp only [hW]
      simp

/-- C5 counterexample: junction 0 holds 1 Car locally, junction 1 holds a
single westbound Car at x = 400 (approaching junction 0), so junction 1's
raw count (1) is at most the threshold; the new cycle for junction 0's
East light is sized by 1 + 1 = 2 vehicles, giving timer 13, which differs
from the 10 the claim's "own local count" sizing would give. -/
theorem claim5_counterexample :
    (app8UpdateEWJ0 c5J0 c5J1).lightE.timer =
      ((app8CalculateGreenTime Side.E [] 2 0 : ℤ) : ℚ)
    ∧ (app8UpdateEWJ0 c5J0 c5J1).lightE.timer ≠
      ((app8CalculateGreenTime Side.E [] (ewVehicleCount c5J0) 0 : ℤ) : ℚ)
    ∧ ewVehicleCount c5J1 ≤ 3 := by
  have h2 : app8CalculateGreenTime Side.E [] 2 0 = 13 := by
    simp only [app8CalculateGreenTime, get_average_performance,
      calculate_performance_adjustment]
    norm_num
  have h1 : app8CalculateGreenTime Side.E [] 1 0 = 10 := by
    simp only [app8CalculateGreenTime, get_average_performance,
      calculate_performance_adjustment]
    norm_num
  have hcount0 : ewVehicleCount c5J0 = 1 := rfl
  have hcount1 : ewVehicleCount c5J1 = 1 := rfl
  have happ : ewApproachingCount c5J1 0 = 1 := by
    norm_num [ewApproachingCount, app8IsApproaching, junctionX, c5J1]
  have hca : c5J0.lightE.countdown_active = false := rfl
  have hdir : c5J0.lightE.direction = Side.E := rfl
  have hhist : c5J0.lightE.performance_history = [] := rfl
  have htimer : (app8UpdateEWJ0 c5J0 c5J1).lightE.timer =
      ((app8CalculateGreenTime Side.E [] 2 0 : ℤ) : ℚ) := by
    norm_num [app8UpdateEWJ0, app8CoordEWJ0, app8StartCycle, hcount0, hcount1,
      happ, hca, hdir, hhist]
  refine ⟨htimer, ?_, by rw [hcount1]; norm_num⟩
  rw [htimer, hcount0, h1, h2]
  norm_num

/-- C5 witness: on the counterexample junctions the amended statement
applies: both of junction 0's East-West lights go green and the East
light's new cycle is sized by the combined count (local plus approaching
from junction 1). -/
theorem claim5_witness :
    ((app8UpdateEWJ0 c5J0 c5J1).lightE.state = LState.green
      ∧ (app8UpdateEWJ0 c5J0 c5J1).lightW.state = LState.green)
    ∧ (app8UpdateEWJ0 c5J0 c5J1).lightE.timer =
        ((app8CalculateGreenTime c5J0.lightE.direction
          c5J0.lightE.performance_history
          (ewVehicleCount c5J0 + ewApproachingCount c5J1 0) 0 : ℤ) : ℚ) := by
  have happ : ewApproachingCount c5J1 0 = 1 := by
    norm_num [ewApproachingCount, app8IsApproaching, junctionX, c5J1]
  have hrun : 0 < ewVehicleCount c5J0 + ewApproachingCount c5J1 0 := by
    rw [happ]
    norm_num
  have hle : ¬ 3 < ewVehicleCount c5J1 := by norm_num [ewVehicleCount, c5J1]
  exact ⟨((claim5_ew_coordination c5J0 c5J1 hrun).2 hle).1,
    (((claim5_ew_coordination c5J0 c5J1 hrun).2 hle).2.1 rfl).1⟩

/-- Helper: every side is in the iteration list. -/
theorem mem_sidesList (s : Side) : s ∈ sidesList := by
  cases s <;> simp [sidesList]

/-- Helper: densities are nonnegative. -/
theorem pg2Densities_nonneg (lanes : Side → List Pg2Lane) (s : Side) :
    0 ≤ pg2Densities lanes s := by
  unfold pg2Densities
  split_ifs
  · exact div_nonneg (Nat.cast_nonneg _) (Nat.cast_nonneg _)
  · exact Nat.cast_nonneg _

/-- Helper: a side's count is at most the total. -/
theorem pg2CountVehicles_le_total (lanes : Side → List Pg2Lane) (s : Side) :
    pg2CountVehicles lanes s ≤ pg2TotalVehicles lanes := by
  cases s <;> simp [pg2TotalVehicles, sidesList] <;> omega

/-- Helper: invariant of the best-direction fold: the running maximum never
decreases, bounds the density of every processed accident-free side, and
the result is either the untouched accumulator or an accident-free member
whose density is the maximum and strictly above the start value. -/
theorem bestStep_foldl_spec (dens : Side → ℚ) (acc : Side → Bool) :
    ∀ (l : List Side) (m : ℚ) (b : Option Side),
      m ≤ (l.foldl (bestStep dens acc) (m, b)).1
      ∧ (∀ s ∈ l, acc s = false → dens s ≤ (l.foldl (bestStep dens acc) (m, b)).1)
      ∧ (l.foldl (bestStep dens acc) (m, b) = (m, b)
         ∨ ∃ c, c ∈ l ∧ acc c = false
             ∧ (l.foldl (bestStep dens acc) (m, b)).1 = dens c
             ∧ (l.foldl (bestStep dens acc) (m, b)).2 = some c
             ∧ m < dens c) := by
  intro l
  induction l with
  | nil =>
    intro m b
    exact ⟨le_refl m, by simp, Or.inl rfl⟩
  | cons s t ih =>
    intro m b
    by_cases hc : acc s = false ∧ m < dens s
    · have hstep : bestStep dens acc (m, b) s = (dens s, some s) := by
        simp [bestStep, hc]
      simp only [List.foldl_cons, hstep]
      obtain ⟨ih1, ih2, ih3⟩ := ih (dens s) (some s)
      refine ⟨le_trans (le_of_lt hc.2) ih1, ?_, ?_⟩
      · intro x hx hax
        rcases List.mem_cons.mp hx with h | h
        · subst h
          exact ih1
        · exact ih2 x h hax
      · rcases ih3 with h | ⟨c, hmem, hacc, h1, h2, hlt⟩
        · exact Or.inr ⟨s, List.mem_cons_self s t, hc.1,
            by rw [h], by rw [h], hc.2⟩
        · exact Or.inr ⟨c, List.mem_cons_of_mem s hmem, hacc, h1, h2,
            lt_trans hc.2 hlt⟩
    · have hstep : bestStep dens acc (m, b) s = (m, b) := by
        simp only [bestStep, if_neg hc]
      simp only [List.foldl_cons, hstep]
      obtain ⟨ih1, ih2, ih3⟩ := ih m b
      refine ⟨ih1, ?_, ?_⟩
      · intro x hx hax
        rcases List.mem_cons.mp hx with h | h
        · subst h
          have hnlt : ¬ m < dens x := fun hlt => hc ⟨hax, hlt⟩
          exact le_trans (le_of_not_lt hnlt) ih1
        · exact ih2 x h hax
      · rcases ih3 with h | ⟨c, hmem, hacc, h1, h2, hlt⟩
        · exact Or.inl h
        · exact Or.inr ⟨c, List.mem_cons_of_mem s hmem, hacc, h1, h2, hlt⟩

/-- C2: each run of `determine_traffic_flow_priorities` computes per-side
density as count/total (0 for every side when the total is 0), then either
some accident-free side `b` of maximal density (strictly positive) wins -
in which case `b`'s axis goes green except that a side with its own active
incident stays red, the other axis goes red, and the timing is set to
`min_green + (max_green - min_green) * density(b)` clamped to `[10, 30]` -
or no accident-free side has positive density and all four sides go red
with no timing set. -/
theorem claim2_priority_decision (lanes : Side → List Pg2Lane) :
    (∀ s, pg2Densities lanes s =
      if pg2TotalVehicles lanes = 0 then 0
      else (pg2CountVehicles lanes s : ℚ) / (pg2TotalVehicles lanes : ℚ))
    ∧ ((∃ b, pg2CheckAccidents lanes b = false
          ∧ 0 < pg2Densities lanes b
          ∧ (∀ s, pg2CheckAccidents lanes s = false →
              pg2Densities lanes s ≤ pg2Densities lanes b)
          ∧ (∀ s, (pg2DeterminePriorities lanes).1 s =
              pg2ClaimStates (pg2CheckAccidents lanes) b s)
          ∧ (pg2DeterminePriorities lanes).2 =
              some (max 10 (min 30 (10 + (30 - 10) * pg2Densities lanes b))))
      ∨ ((∀ s, pg2CheckAccidents lanes s = false → pg2Densities lanes s = 0)
          ∧ (∀ s, (pg2DeterminePriorities lanes).1 s = LState.red)
          ∧ (pg2DeterminePriorities lanes).2 = none)) := by
  constructor
  · intro s
    by_cases ht : pg2TotalVehicles lanes = 0
    · have hle := pg2CountVehicles_le_total lanes s
      rw [ht] at hle
      have hz : pg2CountVehicles lanes s = 0 := Nat.le_zero.mp hle
      simp [pg2Densities, ht, hz]
    · have hpos : 0 < pg2TotalVehicles lanes := Nat.pos_of_ne_zero ht
      simp [pg2Densities, ht, hpos]
  · have hPB : pg2BestDirection (pg2Densities lanes) (pg2CheckAccidents lanes) =
        sidesList.foldl
          (bestStep (pg2Densities lanes) (pg2CheckAccidents lanes)) (0, none) := rfl
    obtain ⟨h1, h2, h3⟩ := bestStep_foldl_spec (pg2Densities lanes)
      (pg2CheckAccidents lanes) sidesList 0 none
    rcases hb : (pg2BestDirection (pg2Densities lanes)
        (pg2CheckAccidents lanes)).2 with _ | b
    · right
      rcases h3 with h | ⟨c, hmem, hacc, hc1, hc2, hlt⟩
      · refine ⟨?_, ?_, ?_⟩
        · intro s hs
          have hle := h2 s (mem_sidesList s) hs
          rw [h] at hle
          exact le_antisymm hle (pg2Densities_nonneg lanes s)
        · intro s
          simp only [pg2DeterminePriorities]
          rw [hb]
        · simp only [pg2DeterminePriorities]
          rw [hb]
      · rw [hPB] at hb
        rw [hc2] at hb
        exact Option.noConfusion hb
    · left
      rcases h3 with h | ⟨c, hmem, hacc, hc1, hc2, hlt⟩
      · rw [hPB, h] at hb
        exact Option.noConfusion hb
      · have hcb : c = b := by
          rw [hPB] at hb
          rw [hc2] at hb
          exact Option.some.inj hb
        subst hcb
        refine ⟨c, hacc, hlt, ?_, ?_, ?_⟩
        · intro s hs
          have hle := h2 s (mem_sidesList s) hs
          rw [hc1] at hle
          exact hle
        · intro s
          simp only [pg2DeterminePriorities]
          rw [hb]
          cases c <;> cases s <;> simp [pg2ClaimStates, axisOf]
        · simp only [pg2DeterminePriorities]
          rw [hb]
          cases c <;> simp [pg2SetTiming]

/-- C2 witness: the density definition evaluated by the decision run on a
concrete junction (two Cars from the North, one Bus from the East, no
incidents). -/
theorem claim2_witness :
    pg2Densities c2Lanes Side.N =
      if pg2TotalVehicles c2Lanes = 0 then 0
      else (pg2CountVehicles c2Lanes Side.N : ℚ) / (pg2TotalVehicles c2Lanes : ℚ) :=
  (claim2_priority_decision c2Lanes).1 Side.N

end Traffic
